import Mathlib

/-!
Shallow embedding of the `common` crate (SCM driver layer, docker credential
transform, and Actor schema helpers), with theorems checking the spec's claims
against the code.
-/

namespace Common

/-! ## Base64 (standard alphabet, the `base64` crate's `STANDARD` engine) -/

/-- UTF-8 encoding of a single character, as its list of byte values. -/
def utf8Bytes (c : Char) : List Nat :=
  let n := c.toNat
  if n < 0x80 then [n]
  else if n < 0x800 then [0xC0 + n / 0x40, 0x80 + n % 0x40]
  else if n < 0x10000 then
    [0xE0 + n / 0x1000, 0x80 + (n / 0x40) % 0x40, 0x80 + n % 0x40]
  else
    [0xF0 + n / 0x40000, 0x80 + (n / 0x1000) % 0x40, 0x80 + (n / 0x40) % 0x40,
      0x80 + n % 0x40]

/-- Character of the standard base64 alphabet at index `n` (0-63). -/
def base64Char (n : Nat) : Char :=
  if n < 26 then Char.ofNat (65 + n)
  else if n < 52 then Char.ofNat (97 + (n - 26))
  else if n < 62 then Char.ofNat (48 + (n - 52))
  else if n = 62 then '+'
  else '/'

/-- Standard base64 of a byte list: 3-byte groups become 4 characters, with
`=` padding for a final group of 1 or 2 bytes. -/
def base64Groups : List Nat → List Char
  | [] => []
  | [a] => [base64Char (a / 4), base64Char (a % 4 * 16), '=', '=']
  | [a, b] =>
    [base64Char (a / 4), base64Char (a % 4 * 16 + b / 16),
      base64Char (b % 16 * 4), '=']
  | a :: b :: c :: rest =>
    base64Char (a / 4) :: base64Char (a % 4 * 16 + b / 16) ::
      base64Char (b % 16 * 4 + c / 64) :: base64Char (c % 64) ::
        base64Groups rest

/-- `BASE64.encode` of the `base64` crate's `STANDARD` engine: standard
base64 over the UTF-8 bytes of the string. -/
def base64Encode (s : String) : String :=
  String.mk (base64Groups (s.data.flatMap utf8Bytes))

/-! ## Docker credential transform (`src/utils/credential.rs`) -/

/-- Modelled from the spec: `config.rs` is not in `src/`; the spec describes
the input as "a mapping from registry endpoint to `{username, password}`". -/
structure Credential where
  username : String
  password : String
deriving DecidableEq, Repr

/-- Modelled from the spec: `Credential::username_any` of the missing
`config.rs`, the username of the credential. -/
def Credential.username_any (c : Credential) : String := c.username

/-- Modelled from the spec: `Credential::password_any` of the missing
`config.rs`, the password of the credential. -/
def Credential.password_any (c : Credential) : String := c.password

/-- Modelled from the spec: `docker.rs` is not in `src/`; the entry value of
the docker config's `auths` map, with `username`, `password` and `auth`
fields as used by `build_docker_config`. -/
structure AuthConfig where
  username : Option String
  password : Option String
  auth : Option String
deriving DecidableEq, Repr

/-- Modelled from the spec: `docker.rs` is not in `src/`; the docker
config-file shape `{auths: ...}`, the `auths` map embedded as an
association list. -/
structure DockerConfig where
  auths : Option (List (String × AuthConfig))
deriving DecidableEq, Repr

/-- `HashMap::insert`: replace the value at an existing key, otherwise add
the binding (embedding of the hash map as an association list). -/
def insertAuth (m : List (String × AuthConfig)) (k : String) (v : AuthConfig) :
    List (String × AuthConfig) :=
  if m.any (fun q => q.1 == k) then
    m.map (fun q => if q.1 == k then (k, v) else q)
  else m ++ [(k, v)]

/-- Body of the `for (endpoint, credential) in entries.iter()` loop of
`build_docker_config`: base64-encode `"username:password"` and insert the
`AuthConfig` with all three fields set. -/
def dockerAuthStep (auths : List (String × AuthConfig))
    (p : String × Credential) : List (String × AuthConfig) :=
  let auth := base64Encode (p.2.username_any ++ ":" ++ p.2.password_any)
  insertAuth auths p.1
    { username := some p.2.username_any
      password := some p.2.password_any
      auth := some auth }

/-- `build_docker_config` (`src/utils/credential.rs`): fold the loop body
over the entries, starting from the empty map, and wrap as
`DockerConfig { auths: Some(auths) }`. -/
def build_docker_config (entries : List (String × Credential)) : DockerConfig :=
  { auths := some (entries.foldl dockerAuthStep []) }

/-! ## Pascal case (the `convert_case` crate's `to_case(Case::Pascal)`) -/

/-- Word delimiter of the `convert_case` crate: space, hyphen or underscore. -/
def isDelim (c : Char) : Bool := c == ' ' || c == '-' || c == '_'

/-- Capitalize one word: first character uppercased, the rest lowercased. -/
def capitalizeWord : List Char → List Char
  | [] => []
  | c :: rest => c.toUpper :: rest.map Char.toLower

/-- Split a character list into words, cutting at delimiters (which are
dropped) and at a lowercase-to-uppercase boundary; `acc` holds the current
word reversed. -/
def splitWordsAux : List Char → List Char → List (List Char)
  | [], acc => if acc.isEmpty then [] else [acc.reverse]
  | c :: rest, acc =>
    if isDelim c then
      if acc.isEmpty then splitWordsAux rest []
      else acc.reverse :: splitWordsAux rest []
    else
      match acc with
      | [] => splitWordsAux rest [c]
      | p :: _ =>
        if p.isLower && c.isUpper then acc.reverse :: splitWordsAux rest [c]
        else splitWordsAux rest (c :: acc)

/-- Modelled from the `convert_case` crate (an external dependency):
`to_case(Case::Pascal)` splits the string into words at delimiters and
case boundaries, capitalizes each word and concatenates them. -/
def pascalCase (s : String) : String :=
  String.mk ((splitWordsAux s.data []).flatMap capitalizeWord)

/-- Rust's `bool::to_string()`: `"true"` or `"false"`. -/
def boolToString (b : Bool) : String := if b then "true" else "false"

/-! ## SCM domain model (`src/scm/git.rs`) -/

/-- A git reference (`src/scm/git.rs`). -/
structure Reference where
  name : String
  path : String
  sha : String
deriving DecidableEq, Repr

/-- An author/committer identity (`src/scm/git.rs`); `login`/`avatar` are
optional account fields. -/
structure Signature where
  name : String
  email : String
  date : String
  login : Option String
  avatar : Option String
deriving DecidableEq, Repr

/-- A repository commit (`src/scm/git.rs`). -/
structure Commit where
  sha : String
  message : String
  author : Signature
  committer : Signature
  link : String
deriving DecidableEq, Repr

/-- A tree entry (`src/scm/git.rs`); `size` may be absent. -/
structure TreeEntry where
  path : String
  mode : String
  entry_type : String
  size : Option Nat
  sha : String
  url : String
deriving DecidableEq, Repr

/-- The tree response type declared in `src/scm/git.rs`. -/
structure TreeResponse where
  sha : String
  url : String
  tree : List TreeEntry
  truncated : Bool
deriving DecidableEq, Repr

/-- Modelled from the spec: the `Tree` type imported by the Gitea driver is
not defined in `src/scm/git.rs`; the spec gives
`Tree = {sha, url, entries, truncated}`. -/
structure Tree where
  sha : String
  url : String
  entries : List TreeEntry
  truncated : Bool
deriving DecidableEq, Repr

/-- Modelled from the spec: `scm/client.rs` is not in `src/`; the spec's
`PageOptions = {page, size, cursor}`, all optional. -/
structure ListOptions where
  page : Option Nat
  size : Option Nat
  cursor : Option String
deriving DecidableEq, Repr

/-- Result of a Rust call in this embedding: an `anyhow::Result` value
(`ok` or `error`), or a panic such as the one raised by the `todo!`
macro. -/
inductive Outcome (α : Type) where
  | ok (value : α)
  | error (msg : String)
  | panicked (msg : String)
deriving DecidableEq, Repr

/-- Modelled from the spec: the HTTP client (`http.rs` is not in `src/`) is
"bound to a base URL and optional token". -/
structure Client where
  base_url : String
  token : Option String
deriving DecidableEq, Repr

/-- Modelled from the spec: `Client::new` binds the base URL and the
optional token. -/
def Client.new (url : String) (token : Option String) : Client :=
  { base_url := url, token := token }

/-! ## Gitea adapter (`src/scm/driver/gitea/git.rs`) -/

/-- The Gitea adapter (`src/scm/driver/gitea/git.rs`): stateless beyond its
configured HTTP client. -/
structure GiteaGitService where
  client : Client
deriving DecidableEq, Repr

/-- `GiteaGitService::list_branches`: the body is `todo!()`, which panics
with "not yet implemented" on every call. -/
def GiteaGitService.list_branches (_self : GiteaGitService) (_repo : String)
    (_opts : ListOptions) : Outcome (List Reference) :=
  .panicked "not yet implemented"

/-- `GiteaGitService::list_tags`: the body is `todo!()`, which panics with
"not yet implemented" on every call. -/
def GiteaGitService.list_tags (_self : GiteaGitService) (_repo : String)
    (_opts : ListOptions) : Outcome (List Reference) :=
  .panicked "not yet implemented"

/-- `GiteaGitService::find_commit`: the body is `todo!()`, which panics with
"not yet implemented" on every call. -/
def GiteaGitService.find_commit (_self : GiteaGitService) (_repo : String)
    (_reference : String) : Outcome (Option Commit) :=
  .panicked "not yet implemented"

/-- `GiteaGitService::get_tree`: the body is `todo!()`, which panics with
"not yet implemented" on every call. -/
def GiteaGitService.get_tree (_self : GiteaGitService) (_repo : String)
    (_tree_sha : String) (_recursive : Option Bool) : Outcome (Option Tree) :=
  .panicked "not yet implemented"

/-! ## Signature of the trait's tree operation (`src/scm/git.rs` line 78
versus `src/scm/driver/gitea/git.rs` line 40) -/

/-- Rust type of the `recursive` parameter of a tree-lookup method. -/
inductive RecursiveParamTy where
  | strRef
  | optionBool
deriving DecidableEq, Repr

/-- Transcribed from the `GitService` trait declaration (`src/scm/git.rs`):
the trait's tree operation is named `git_trees`. -/
def GitService.tree_op_name : String := "git_trees"

/-- Transcribed from the `GitService` trait declaration (`src/scm/git.rs`):
`git_trees(&self, repo: &str, tree_sha: &str, recursive: &str)` takes its
`recursive` parameter as `&str`. -/
def GitService.tree_op_recursive_param : RecursiveParamTy := .strRef

/-- Transcribed from the Gitea impl (`src/scm/driver/gitea/git.rs`): the
adapter's tree operation is named `get_tree`. -/
def GiteaGitService.tree_op_name : String := "get_tree"

/-- Transcribed from the Gitea impl (`src/scm/driver/gitea/git.rs`):
`get_tree(&self, repo: &str, tree_sha: &str, recursive: Option<bool>)`
takes its `recursive` parameter as `Option<bool>`. -/
def GiteaGitService.tree_op_recursive_param : RecursiveParamTy := .optionBool

/-! ## Dispatch / factory (`src/scm/driver/gitea/mod.rs`) -/

/-- Modelled from the spec: `driver.rs` is not in `src/`; the concrete Gitea
driver wraps the configured client. -/
structure GiteaDriver where
  client : Client
deriving DecidableEq, Repr

/-- Modelled from the spec: `scm/driver/mod.rs` is not in `src/`; dispatch is
"via a tagged union ... chosen once at construction time". -/
inductive Driver where
  | Gitea (driver : GiteaDriver)
deriving DecidableEq, Repr

/-- Modelled from the spec: `constants.rs` is not in `src/`; the provider's
well-known hosted default endpoint. -/
def GITEA_ENDPOINT : String := "https://gitea.com"

/-- `gitea::from` (`src/scm/driver/gitea/mod.rs`): returns a new Gitea
driver using the given client. -/
def gitea.«from» (client : Client) : Driver :=
  Driver.Gitea { client := client }

/-- `gitea::default` (`src/scm/driver/gitea/mod.rs`): returns a new Gitea
driver using the default address. -/
def gitea.default : Driver :=
  gitea.«from» (Client.new GITEA_ENDPOINT none)

/-- `gitea::new` (`src/scm/driver/gitea/mod.rs`): returns a new Gitea driver
for the given URL and token. -/
def gitea.new (url : String) (token : Option String) : Driver :=
  gitea.«from» (Client.new url token)

/-! ## Actor schema (`src/schema/actor.rs`) -/

/-- Modelled from the spec: `schema/source.rs` is not in `src/`; only the
presence of the field matters for the claims below. -/
structure Source where
  repository : String
deriving DecidableEq, Repr

/-- Modelled from the spec: `schema/build.rs` is not in `src/`; fields as
used by `ActorSpec`'s build helpers. -/
structure Build where
  dockerfile : Option String
  builder : Option String
  context : Option String
  environments : Option (List (String × String))
deriving DecidableEq, Repr

/-- Modelled from the spec: `schema/service.rs` is not in `src/`; a declared
port with its optional `expose` flag, as used by `ActorSpec`. -/
structure Port where
  port : Int
  expose : Option Bool
deriving DecidableEq, Repr

/-- Modelled from the spec: `schema/service.rs` is not in `src/`; a service
declares a list of ports. -/
structure Service where
  ports : List Port
deriving DecidableEq, Repr

/-- Modelled from the `k8s_openapi` crate (external dependency): a container
port, carrying the port number. -/
structure ContainerPort where
  container_port : Int
deriving DecidableEq, Repr

/-- Modelled from the `k8s_openapi` crate (external dependency): a service
port, carrying the port number. -/
structure ServicePort where
  port : Int
deriving DecidableEq, Repr

/-- Modelled from the spec: the `From<&Port> for ContainerPort` conversion of
the missing `schema/service.rs`. -/
def Port.toContainerPort (p : Port) : ContainerPort :=
  { container_port := p.port }

/-- Modelled from the spec: the `From<&Port> for ServicePort` conversion of
the missing `schema/service.rs`. -/
def Port.toServicePort (p : Port) : ServicePort :=
  { port := p.port }

/-- `ActorSpec` (`src/schema/actor.rs`), with the types of the missing
sibling modules modelled above. -/
structure ActorSpec where
  name : String
  description : Option String
  source : Source
  image : String
  command : Option String
  environments : Option (List (String × String))
  partners : Option (List (String × Source))
  services : Option (List Service)
  sync : Option Bool
  build : Option Build
deriving DecidableEq, Repr

/-- `ActorSpec::container_ports` (`src/schema/actor.rs`): collect every
declared port of every service, then keep the `Some` only when the
collected vector is empty (`Some(ports).filter(|v| v.is_empty())`). -/
def ActorSpec.container_ports (s : ActorSpec) : Option (List ContainerPort) :=
  match s.services with
  | none => none
  | some services =>
    let ports := services.foldl
      (fun ports service => ports ++ service.ports.map Port.toContainerPort) []
    (some ports).filter (fun v => v.isEmpty)

/-- `ActorSpec::service_ports` (`src/schema/actor.rs`): collect the ports
whose `expose` flag is set (`expose.unwrap_or_default()`), then keep the
`Some` only when the collected vector is empty. -/
def ActorSpec.service_ports (s : ActorSpec) : Option (List ServicePort) :=
  match s.services with
  | none => none
  | some services =>
    let ports := services.foldl
      (fun ports service =>
        ports ++ (service.ports.filter (fun p => p.expose.getD false)).map
          Port.toServicePort) []
    (some ports).filter (fun v => v.isEmpty)

/-- Modelled from the `k8s_openapi` crate (external dependency): the wrapped
condition timestamp; time is threaded explicitly in this embedding. -/
structure Time where
  t : Nat
deriving DecidableEq, Repr

/-- Modelled from the `k8s_openapi` crate (external dependency): the
Kubernetes condition record, with exactly the fields `ActorState::create`
fills in. -/
structure Condition where
  type_ : String
  status : String
  last_transition_time : Time
  reason : String
  observed_generation : Option Int
  message : String
deriving DecidableEq, Repr

/-- The actor states (`src/schema/actor.rs`). -/
inductive ActorState where
  | Pending
  | Building
  | Running
  | Failed
deriving DecidableEq, Repr

/-- The `Display` impl of `ActorState` (`src/schema/actor.rs`). -/
def ActorState.toString : ActorState → String
  | .Pending => "Pending"
  | .Building => "Building"
  | .Running => "Running"
  | .Failed => "Failed"

/-- `ActorState::create` (`src/schema/actor.rs`): build the condition record;
`Utc::now()` is passed explicitly as `now`. -/
def ActorState.create (state : ActorState) (status : Bool) (reason : String)
    (message : Option String) (now : Nat) : Condition :=
  { type_ := state.toString
    status := pascalCase (boolToString status)
    last_transition_time := { t := now }
    reason := pascalCase reason
    observed_generation := none
    message :=
      match message with
      | some message => message
      | none => "" }

/-- `ActorState::pending` (`src/schema/actor.rs`). -/
def ActorState.pending (now : Nat) : Condition :=
  ActorState.create .Pending true "Created" none now

/-- `ActorState::building` (`src/schema/actor.rs`). -/
def ActorState.building (now : Nat) : Condition :=
  ActorState.create .Building true "Build" none now

/-- `ActorState::running` (`src/schema/actor.rs`). -/
def ActorState.running (status : Bool) (reason : String)
    (message : Option String) (now : Nat) : Condition :=
  ActorState.create .Running status reason message now

/-- `ActorState::failed` (`src/schema/actor.rs`). -/
def ActorState.failed (status : Bool) (reason : String)
    (message : Option String) (now : Nat) : Condition :=
  ActorState.create .Failed status reason message now

/-- `ActorStatus` (`src/schema/actor.rs`): a list of conditions. -/
structure ActorStatus where
  conditions : List Condition
deriving DecidableEq, Repr

/-- `ActorStatus::state` (`src/schema/actor.rs`): whether some condition has
the given state's name as its type and the Pascal-cased boolean as its
status. -/
def ActorStatus.state (s : ActorStatus) (st : ActorState) (status : Bool) :
    Bool :=
  s.conditions.any (fun condition =>
    condition.type_ == st.toString &&
      condition.status == pascalCase (boolToString status))

/-- `ActorStatus::pending` (`src/schema/actor.rs`). -/
def ActorStatus.pending (s : ActorStatus) : Bool := s.state .Pending true

/-- `ActorStatus::building` (`src/schema/actor.rs`). -/
def ActorStatus.building (s : ActorStatus) : Bool := s.state .Building true

/-- `ActorStatus::running` (`src/schema/actor.rs`). -/
def ActorStatus.running (s : ActorStatus) : Bool := s.state .Running true

/-- `ActorStatus::failed` (`src/schema/actor.rs`). -/
def ActorStatus.failed (s : ActorStatus) : Bool := s.state .Failed true

/-! ## Theorems -/

/-- Claim C4: on the input map `{"registry.io": {username: "u", password:
"p"}}`, `build_docker_config` produces exactly
`{auths: {"registry.io": {username: "u", password: "p", auth:
base64("u:p")}}}`, every `AuthConfig` field present and `auth` the standard
base64 encoding of `"u:p"`, namely `"dTpw"`. -/
theorem build_docker_config_registry_io :
    build_docker_config [("registry.io", { username := "u", password := "p" })] =
      { auths := some [("registry.io",
          { username := some "u", password := some "p",
            auth := some "dTpw" })] } ∧
    base64Encode "u:p" = "dTpw" :=
  ⟨rfl, rfl⟩

/-- Claim C5: when no explicit base URL is supplied, `gitea::default` binds
the driver to the provider's default endpoint with no token: it equals
`from(Client::new(GITEA_ENDPOINT, None))`, i.e. a Gitea driver whose client
has the default endpoint as base URL and no token. -/
theorem gitea_default_is_default_endpoint :
    gitea.default = gitea.«from» (Client.new GITEA_ENDPOINT none) ∧
    gitea.default =
      Driver.Gitea { client := { base_url := GITEA_ENDPOINT, token := none } } :=
  ⟨rfl, rfl⟩

/-- Claim C1 (code bug): `GiteaGitService::find_commit` is `todo!()`, so the
call for a missing commit panics with "not yet implemented" instead of
returning the absent value `Ok(None)`; in particular it never returns a
successful value. -/
theorem gitea_find_commit_panics (svc : GiteaGitService) (repo : String) :
    svc.find_commit repo "does-not-exist" =
      Outcome.panicked "not yet implemented" ∧
    ∀ c : Option Commit,
      svc.find_commit repo "does-not-exist" ≠ Outcome.ok c :=
  ⟨rfl, fun _ h => Outcome.noConfusion h⟩

/-- Claim C2 (code bug): `GiteaGitService::list_branches` and `list_tags` are
`todo!()`: every call panics with "not yet implemented"; they never return a
`Decode` error (or any error) for malformed input, contrary to the claim
that they never panic. -/
theorem gitea_list_branches_tags_panic (svc : GiteaGitService) (repo : String)
    (opts : ListOptions) :
    svc.list_branches repo opts = Outcome.panicked "not yet implemented" ∧
    svc.list_tags repo opts = Outcome.panicked "not yet implemented" ∧
    (∀ msg, svc.list_branches repo opts ≠ Outcome.error msg) ∧
    (∀ msg, svc.list_tags repo opts ≠ Outcome.error msg) :=
  ⟨rfl, rfl, fun _ h => Outcome.noConfusion h, fun _ h => Outcome.noConfusion h⟩

/-- Claim C3 (code bug): the `GitService` trait's tree operation is
`git_trees` with `recursive: &str`, while the Gitea impl defines `get_tree`
with `recursive: Option<bool>`; the two disagree, so the trait does not
expose the claimed `get_tree(.., recursive: optional bool)` signature. -/
theorem git_trees_signature_mismatch :
    GitService.tree_op_name = "git_trees" ∧
    GitService.tree_op_recursive_param = RecursiveParamTy.strRef ∧
    GiteaGitService.tree_op_name = "get_tree" ∧
    GiteaGitService.tree_op_recursive_param = RecursiveParamTy.optionBool ∧
    GitService.tree_op_recursive_param ≠
      GiteaGitService.tree_op_recursive_param :=
  ⟨rfl, rfl, rfl, rfl, by decide⟩

/-- Claim C6 (code bug): `GiteaGitService::get_tree` is `todo!()`: every call
panics with "not yet implemented" and never returns a normalized result, so
two identical calls never return equal normalized results — no call returns
at all. -/
theorem gitea_get_tree_panics (svc : GiteaGitService)
    (repo tree_sha : String) (recursive : Option Bool) :
    svc.get_tree repo tree_sha recursive =
      Outcome.panicked "not yet implemented" ∧
    ∀ t : Option Tree,
      svc.get_tree repo tree_sha recursive ≠ Outcome.ok t :=
  ⟨rfl, fun _ h => Outcome.noConfusion h⟩

/-- Claim C7 counterexample: the condition built by
`ActorState::running(true, "not found", None)` does not carry the supplied
reason verbatim — `create` Pascal-cases it to `"NotFound"`. -/
theorem actorstate_reason_not_verbatim :
    (ActorState.running true "not found" none 0).reason ≠ "not found" := by
  decide

/-- Claim C7 (amended): each of the four condition constructors produces a
record whose type is the state's name, whose status Pascal-cases the given
boolean (`"True"`/`"False"`), whose reason is the supplied reason converted
to Pascal case, whose message is the supplied message (empty string when
absent), and which carries the transition timestamp. -/
theorem actorstate_create_characterization (status : Bool) (reason : String)
    (message : Option String) (now : Nat) :
    ActorState.pending now =
      { type_ := "Pending", status := "True",
        last_transition_time := { t := now }, reason := "Created",
        observed_generation := none, message := "" } ∧
    ActorState.building now =
      { type_ := "Building", status := "True",
        last_transition_time := { t := now }, reason := "Build",
        observed_generation := none, message := "" } ∧
    ActorState.running status reason message now =
      { type_ := "Running", status := if status then "True" else "False",
        last_transition_time := { t := now }, reason := pascalCase reason,
        observed_generation := none, message := message.getD "" } ∧
    ActorState.failed status reason message now =
      { type_ := "Failed", status := if status then "True" else "False",
        last_transition_time := { t := now }, reason := pascalCase reason,
        observed_generation := none, message := message.getD "" } := by
  have htrue : pascalCase (boolToString true) = "True" := by decide
  have hfalse : pascalCase (boolToString false) = "False" := by decide
  have hcreated : pascalCase "Created" = "Created" := by decide
  have hbuild : pascalCase "Build" = "Build" := by decide
  refine ⟨?_, ?_, ?_, ?_⟩ <;> cases status <;> cases message <;>
    simp [ActorState.pending, ActorState.building, ActorState.running,
      ActorState.failed, ActorState.create, ActorState.toString, htrue, hfalse,
      hcreated, hbuild, Option.getD]

/-- Claim C9: the condition constructors are coherent with the status
queries: a status whose conditions contain the condition built by
`ActorState::pending()`, `building()`, `running(true, ..)` or
`failed(true, ..)` answers `true` to the matching query. -/
theorem actorstatus_constructor_coherent (conds : List Condition)
    (reason : String) (message : Option String) (now : Nat) :
    (ActorState.pending now ∈ conds → (ActorStatus.mk conds).pending = true) ∧
    (ActorState.building now ∈ conds →
      (ActorStatus.mk conds).building = true) ∧
    (ActorState.running true reason message now ∈ conds →
      (ActorStatus.mk conds).running = true) ∧
    (ActorState.failed true reason message now ∈ conds →
      (ActorStatus.mk conds).failed = true) := by
  refine ⟨fun h => ?_, fun h => ?_, fun h => ?_, fun h => ?_⟩ <;>
    · simp only [ActorStatus.pending, ActorStatus.building,
        ActorStatus.running, ActorStatus.failed, ActorStatus.state,
        List.any_eq_true]
      exact ⟨_, h, by
        simp [ActorState.pending, ActorState.building, ActorState.running,
          ActorState.failed, ActorState.create]⟩

/-- Witness for claim C9: a status holding the condition built by
`running(true, "ok", None)` reports `running() = true`. -/
theorem actorstatus_constructor_coherent_witness :
    (ActorStatus.mk [ActorState.running true "ok" none 0]).running = true :=
  (actorstatus_constructor_coherent [ActorState.running true "ok" none 0]
      "ok" none 0).2.2.1 (List.mem_singleton.mpr rfl)

/-- Folding list concatenation over a list equals appending the flattened
image. -/
theorem foldl_append_flatten {α β : Type} (l : List α) (f : α → List β)
    (acc : List β) :
    l.foldl (fun a s => a ++ f s) acc = acc ++ (l.map f).flatten := by
  induction l generalizing acc with
  | nil => simp
  | cons x xs ih => simp [ih, List.append_assoc]

/-- `Some(v).filter(|v| v.is_empty())` is `Some []` exactly for the empty
vector and `None` exactly for a non-empty one. -/
theorem filter_isEmpty_characterization {γ : Type} (P : List γ) :
    ((some P).filter (fun v => v.isEmpty) = some [] ↔ P = []) ∧
    ((some P).filter (fun v => v.isEmpty) = none ↔ P ≠ []) := by
  by_cases hP : P = [] <;> simp [Option.filter, hP]

/-- Claim C8: with `services` present, `container_ports` is `Some []` exactly
when no service declares any port and `None` as soon as one does;
`service_ports` behaves the same over the ports whose `expose` flag is set;
with `services` absent both are `None`. -/
theorem actor_ports_characterization (s : ActorSpec) :
    (s.services = none → s.container_ports = none ∧ s.service_ports = none) ∧
    (∀ services, s.services = some services →
      ((s.container_ports = some [] ↔ ∀ svc ∈ services, svc.ports = []) ∧
       (s.container_ports = none ↔ ∃ svc ∈ services, svc.ports ≠ []) ∧
       (s.service_ports = some [] ↔
         ∀ svc ∈ services, ∀ p ∈ svc.ports, p.expose.getD false = false) ∧
       (s.service_ports = none ↔
         ∃ svc ∈ services, ∃ p ∈ svc.ports, p.expose.getD false = true))) := by
  constructor
  · intro h
    simp [ActorSpec.container_ports, ActorSpec.service_ports, h]
  · intro services h
    have hc : s.container_ports =
        (some ((services.map
          (fun svc => svc.ports.map Port.toContainerPort)).flatten)).filter
            (fun v => v.isEmpty) := by
      simp [ActorSpec.container_ports, h, foldl_append_flatten]
    have hs : s.service_ports =
        (some ((services.map (fun svc =>
          (svc.ports.filter (fun p => p.expose.getD false)).map
            Port.toServicePort)).flatten)).filter (fun v => v.isEmpty) := by
      simp [ActorSpec.service_ports, h, foldl_append_flatten]
    rw [hc, hs]
    refine ⟨?_, ?_, ?_, ?_⟩
    · rw [(filter_isEmpty_characterization _).1]
      simp [List.flatten_eq_nil_iff, List.map_eq_nil_iff]
    · rw [(filter_isEmpty_characterization _).2]
      rw [Ne, List.flatten_eq_nil_iff]
      push_neg
      simp [List.map_eq_nil_iff]
    · rw [(filter_isEmpty_characterization _).1]
      simp [List.flatten_eq_nil_iff, List.map_eq_nil_iff,
        List.filter_eq_nil_iff]
    · rw [(filter_isEmpty_characterization _).2]
      rw [Ne, List.flatten_eq_nil_iff]
      push_neg
      simp [List.map_eq_nil_iff, List.filter_eq_nil_iff]

/-- Witness for claim C8: a spec with one service declaring one port has
`container_ports = None`. -/
theorem actor_ports_characterization_witness :
    (ActorSpec.mk "a" none { repository := "r" } "img" none none none
        (some [{ ports := [{ port := 80, expose := some true }] }]) none
        none).container_ports = none :=
  (((actor_ports_characterization _).2
      [{ ports := [{ port := 80, expose := some true }] }] rfl).2.1).mpr
    ⟨{ ports := [{ port := 80, expose := some true }] }, by simp, by simp⟩

/-- Folding `insertAuth` of fresh keys over entries with pairwise-distinct
keys appends exactly one binding per entry, in order. -/
theorem foldl_insertAuth_eq (g : String × Credential → AuthConfig) :
    ∀ (entries : List (String × Credential))
      (acc : List (String × AuthConfig)),
      (∀ p ∈ entries, ∀ q ∈ acc, q.1 ≠ p.1) →
      (entries.map Prod.fst).Nodup →
      entries.foldl (fun auths p => insertAuth auths p.1 (g p)) acc =
        acc ++ entries.map (fun p => (p.1, g p)) := by
  intro entries
  induction entries with
  | nil => intro acc _ _; simp
  | cons e rest ih =>
    intro acc hdisj hnd
    simp only [List.map_cons, List.nodup_cons] at hnd
    have hnotin : (acc.any (fun q => q.1 == e.1)) = false := by
      rw [List.any_eq_false]
      intro q hq
      simp only [beq_iff_eq]
      exact hdisj e (List.mem_cons_self e rest) q hq
    have hstep : insertAuth acc e.1 (g e) = acc ++ [(e.1, g e)] := by
      simp [insertAuth, hnotin]
    have hdisj' : ∀ p ∈ rest, ∀ q ∈ acc ++ [(e.1, g e)], q.1 ≠ p.1 := by
      intro p hp q hq
      rcases List.mem_append.mp hq with h1 | h1
      · exact hdisj p (List.mem_cons_of_mem e hp) q h1
      · have hq2 : q = (e.1, g e) := by simpa using h1
        subst hq2
        intro hcontra
        exact hnd.1 (hcontra ▸ List.mem_map_of_mem Prod.fst hp)
    rw [List.foldl_cons, hstep, ih (acc ++ [(e.1, g e)]) hdisj' hnd.2]
    simp

/-- Claim C10: for any input with distinct endpoint keys,
`build_docker_config` returns a present `auths` map with exactly the input's
keys, each entry computed pointwise from that endpoint's credential with
`username`, `password` and `auth` all present. -/
theorem build_docker_config_pointwise (entries : List (String × Credential))
    (hnd : (entries.map Prod.fst).Nodup) :
    ∃ m, (build_docker_config entries).auths = some m ∧
      m.map Prod.fst = entries.map Prod.fst ∧
      m = entries.map (fun p => (p.1,
        AuthConfig.mk (some p.2.username_any) (some p.2.password_any)
          (some (base64Encode
            (p.2.username_any ++ ":" ++ p.2.password_any))))) := by
  have key : entries.foldl dockerAuthStep [] =
      entries.map (fun p => (p.1,
        AuthConfig.mk (some p.2.username_any) (some p.2.password_any)
          (some (base64Encode
            (p.2.username_any ++ ":" ++ p.2.password_any))))) := by
    have h0 : entries.foldl dockerAuthStep [] =
        entries.foldl (fun auths p => insertAuth auths p.1
          (AuthConfig.mk (some p.2.username_any) (some p.2.password_any)
            (some (base64Encode
              (p.2.username_any ++ ":" ++ p.2.password_any))))) [] := rfl
    rw [h0, foldl_insertAuth_eq _ entries [] (by simp) hnd]
    simp
  refine ⟨entries.map (fun p => (p.1,
    AuthConfig.mk (some p.2.username_any) (some p.2.password_any)
      (some (base64Encode
        (p.2.username_any ++ ":" ++ p.2.password_any))))), ?_, ?_, rfl⟩
  · show some (entries.foldl dockerAuthStep []) = _
    rw [key]
  · simp

/-- Witness for claim C10: the two-entry input with distinct keys `"a"`,
`"b"` satisfies the pointwise characterization. -/
theorem build_docker_config_pointwise_witness :
    (([("a", Credential.mk "u1" "p1"),
        ("b", Credential.mk "u2" "p2")].map Prod.fst).Nodup) ∧
    (∃ m, (build_docker_config [("a", Credential.mk "u1" "p1"),
        ("b", Credential.mk "u2" "p2")]).auths = some m ∧
      m.map Prod.fst = [("a", Credential.mk "u1" "p1"),
        ("b", Credential.mk "u2" "p2")].map Prod.fst ∧
      m = [("a", Credential.mk "u1" "p1"),
        ("b", Credential.mk "u2" "p2")].map (fun p => (p.1,
          AuthConfig.mk (some p.2.username_any) (some p.2.password_any)
            (some (base64Encode
              (p.2.username_any ++ ":" ++ p.2.password_any)))))) :=
  ⟨by decide, build_docker_config_pointwise _ (by decide)⟩

end Common
